import Mathlib

/-!
Shallow embedding of the ChildSafe assistant backend
(`app/rag.py`, `app/web_search.py`, `app/langchain_rag.py`).

External collaborators (the Gemini language model, the Tavily / SerpAPI
search clients, and the ChromaDB vector store) are modelled as oracle
fields of explicit environment records; the repository's own control
flow is translated statement by statement.  Python dictionaries with
optional keys become structures with `Option` fields, Python list
truthiness becomes emptiness tests, Python exceptions become
`Except String`, and Python floats become `ℚ`.
-/

namespace ChildSafe

/-- Python `str.lower()` over the underlying characters (the strings
this system handles are ASCII, where `Char.toLower` agrees with
Python). -/
def pyLower (s : String) : String := String.mk (s.data.map Char.toLower)

/-- Python `str.strip()`: drop leading and trailing whitespace. -/
def pyStrip (s : String) : String :=
  String.mk (((s.data.dropWhile Char.isWhitespace).reverse.dropWhile Char.isWhitespace).reverse)

/-- Python slicing `s[:n]`. -/
def pyTake (s : String) (n : Nat) : String := String.mk (s.data.take n)

/-- Python substring membership on character lists: `pat` occurs
contiguously inside the second list (`pat in s` for strings). -/
def listInfix (pat : List Char) : List Char → Bool
  | [] => pat.isEmpty
  | c :: t => pat.isPrefixOf (c :: t) || listInfix pat t

/-- Python `pat in s` for strings: substring containment. -/
def strContains (s pat : String) : Bool :=
  listInfix pat.toList s.toList

/-- Python `a.get(k1) or a.get(k2) or ... or ""`: first present,
non-empty string, else the empty string. -/
def firstTruthy : List (Option String) → String
  | [] => ""
  | Option.none :: rest => firstTruthy rest
  | Option.some s :: rest => if s = "" then firstTruthy rest else s

/-- A web search result item (Tavily result, SerpAPI organic result, or
an article passed through `smart_query`); every key a dict item may or
may not carry is an `Option` field. -/
structure Article where
  title : Option String
  url : Option String
  link : Option String
  snippet : Option String
  content : Option String
  displayed_link : Option String
  source : Option String
deriving DecidableEq

/-- The dict shape returned by every branch of `search_articles`,
`tavily_search` and `google_search`: `{query, articles, answer}`. -/
structure SearchResult where
  query : String
  articles : List Article
  answer : String
deriving DecidableEq

/-- Dict-like payload of a Tavily client search: `results` key may be
missing (`None`) or empty, both falsy in Python. -/
structure TavilyResults where
  results : Option (List Article)
deriving DecidableEq

/-- Dict-like payload of a SerpAPI search: the `organic_results` key may
be missing or empty. -/
structure SerpResults where
  organic_results : Option (List Article)
deriving DecidableEq

/-- Configuration and external-client oracles consumed by
`app/web_search.py`.  `mode` is the module-level `SEARCH_MODE` value
after the import-fallback at lines 11-19; the three SerpAPI oracles
model the new `serpapi.Client` call and the two legacy package
fallbacks, each of which can raise (`Except.error`) or return a possibly
falsy result (`Option.none` models a falsy `results`). -/
structure SearchConfig where
  mode : String
  serpapiKey : Option String
  tavilyKey : Option String
  tavilySearch : String → Nat → TavilyResults
  serpSearch : String → Nat → Except String (Option SerpResults)
  legacySearch1 : String → Nat → Except String (Option SerpResults)
  legacySearch2 : String → Nat → Except String (Option SerpResults)

/-- Module-level `SEARCH_MODE` computation (web_search.py lines 11-19):
the env var (default "tavily") lowercased; if it selects "tavily" but
the Tavily package fails to import, fall back to "google". -/
def effective_search_mode (rawEnv : Option String) (tavilyImportOk : Bool) : String :=
  let m := pyLower (rawEnv.getD "tavily")
  if m = "tavily" && !tavilyImportOk then "google" else m

/-- Query enhancement shared verbatim by `tavily_search` and
`google_search`: append fixed domain keywords when the query does not
already mention the organization. -/
def enhance_query (query : String) : String :=
  if !(strContains (pyLower query) "childsafe") && !(strContains (pyLower query) "child safe") then
    query ++ " ChildSafe South Africa child safety"
  else
    query

/-- The fixed keyword list both relevance filters use. -/
def childsafe_keywords : List String :=
  ["childsafe", "child safe", "child safety", "children\x27s safety",
   "child protection", "south africa child"]

/-- `is_childsafe_related` inside `tavily_search`: keyword match over
concatenated title and content. -/
def is_childsafe_related_tavily (r : Article) : Bool :=
  let text := pyLower ((r.title.getD "") ++ " " ++ (r.content.getD ""))
  childsafe_keywords.any (fun keyword => strContains text keyword)

/-- `is_childsafe_related` inside `google_search`: keyword match over
title and snippet. -/
def is_childsafe_related_serp (item : Article) : Bool :=
  let title := item.title.getD ""
  let snippet := item.snippet.getD ""
  let text := pyLower (title ++ " " ++ snippet)
  childsafe_keywords.any (fun k => strContains text k)

/-- `tavily_search` (web_search.py lines 25-68). -/
def tavily_search (cfg : SearchConfig) (query : String) (max_results : Nat) : SearchResult :=
  let enhanced_query := enhance_query query
  let results := cfg.tavilySearch enhanced_query max_results
  if (results.results.getD []).isEmpty then
    { query := query, answer := "No relevant articles found.", articles := [] }
  else
    let childsafe_results := (results.results.getD []).filter is_childsafe_related_tavily
    if childsafe_results.isEmpty then
      { query := query, articles := [],
        answer := "No relevant ChildSafe South Africa information found." }
    else
      let answer_parts := childsafe_results.map (fun r =>
        let title := r.title.getD "Untitled"
        let url := r.url.getD ""
        let content := r.content.getD ""
        let snippet := pyTake content 200
        "**" ++ title ++ "**\n" ++ snippet ++ "...\n[Read more](" ++ url ++ ")")
      let answer := String.intercalate "\n\n" answer_parts
      { query := query, articles := childsafe_results, answer := answer }

/-- `google_search` (web_search.py lines 74-176).  The nested
try/except chain over the new client and the two legacy wrappers is an
explicit match cascade; its overall outcome is either a (possibly
falsy) result or the pair of exceptions reported in the debug answer. -/
def google_search (cfg : SearchConfig) (query : String) (max_results : Nat) : SearchResult :=
  let enhanced_query := enhance_query query
  match cfg.serpapiKey with
  | Option.none =>
    { query := query, articles := [], answer := "No SERPAPI_API_KEY configured." }
  | Option.some _ =>
    let attempt : Except (String × String) (Option SerpResults) :=
      match cfg.serpSearch enhanced_query max_results with
      | Except.ok r => Except.ok r
      | Except.error search_error =>
        match cfg.legacySearch1 enhanced_query max_results with
        | Except.ok r => Except.ok r
        | Except.error _ =>
          match cfg.legacySearch2 enhanced_query max_results with
          | Except.ok r => Except.ok r
          | Except.error e2 => Except.error (search_error, e2)
    match attempt with
    | Except.error es =>
      { query := query, articles := [],
        answer := "Search error: " ++ es.1 ++ " / " ++ es.2 }
    | Except.ok resultsOpt =>
      match resultsOpt with
      | Option.none =>
        { query := query, articles := [], answer := "No search results found." }
      | Option.some results =>
        let organic := results.organic_results
        if (organic.getD []).isEmpty then
          { query := query, articles := [], answer := "No organic results found." }
        else
          let articles := (organic.getD []).take max_results
          let childsafe_articles := articles.filter is_childsafe_related_serp
          if childsafe_articles.isEmpty then
            { query := query, articles := [],
              answer := "No relevant ChildSafe South Africa information found." }
          else
            let answer_parts := childsafe_articles.map (fun r =>
              let title := r.title.getD "Untitled"
              let link := firstTruthy [r.link, r.displayed_link, r.source]
              let snippet := r.snippet.getD ""
              "**" ++ title ++ "**\n" ++ snippet ++ "\n[Read more](" ++ link ++ ")")
            let answer := String.intercalate "\n\n" answer_parts
            { query := query, articles := childsafe_articles, answer := answer }

/-- `search_articles` dispatch (web_search.py lines 178-198). -/
def search_articles (cfg : SearchConfig) (query : String) (max_results : Nat) : SearchResult :=
  if cfg.mode = "google" && cfg.serpapiKey.isSome then
    google_search cfg query max_results
  else if cfg.mode = "tavily" && cfg.tavilyKey.isSome then
    tavily_search cfg query max_results
  else
    { query := query, articles := [],
      answer := "No search API keys configured. Please set SERPAPI_API_KEY or TAVILY_API_KEY." }

/-- Per-chunk metadata as stored in the collection and read back by the
query paths (`report_year`, `page`); keys a record may lack are
`Option` fields. -/
structure Meta where
  report_year : Option String
  page : Option String
deriving DecidableEq

/-- The dict returned by `collection.query`: each key may be missing
(`dict.get` default applies) and carries one inner list per input
query. -/
structure ChromaQueryResult where
  documents : Option (List (List String))
  metadatas : Option (List (List Meta))
  distances : Option (List (List ℚ))
  ids : Option (List (List String))
deriving DecidableEq

/-- Oracle for the ChromaDB client: connecting plus `get_collection`
is one failable step, and `count` and `query` can each raise
(`Except.error` carries the stringified exception). -/
structure VectorStore where
  get_collection : Except String Unit
  count : Except String Nat
  query : String → Int → Except String ChromaQueryResult

/-- The dict `query_rag` returns (`total_docs` and `error` keys are
present only on some paths, hence `Option`). -/
structure RagResult where
  query : String
  results : List String
  metadatas : List Meta
  scores : List ℚ
  ids : List String
  total_docs : Option Nat
  error : Option String
deriving DecidableEq

/-- Distance-to-similarity conversion in `query_rag` (rag.py line 60):
`1.0 - min(float(d), 1.0)`. -/
def scoreOfDistance (d : ℚ) : ℚ :=
  1 - min d 1

/-- The body of `query_rag`'s `try:` block (rag.py lines 31-70); a
raised exception from any vector-store step propagates as
`Except.error`. -/
def query_rag_attempt (vs : VectorStore) (query_text : String) (top_k : Int) :
    Except String RagResult :=
  match vs.get_collection with
  | Except.error e => Except.error e
  | Except.ok _ =>
    match vs.count with
    | Except.error e => Except.error e
    | Except.ok count =>
      if count = 0 then
        Except.ok { query := query_text, results := [], metadatas := [], scores := [],
                    ids := [], total_docs := Option.none,
                    error := Option.some "No documents in collection" }
      else
        match vs.query query_text top_k with
        | Except.error e => Except.error e
        | Except.ok results =>
          let documents := (results.documents.getD [[]]).headD []
          let metadatas := (results.metadatas.getD [[]]).headD []
          let distances := (results.distances.getD [[]]).headD []
          let ids := (results.ids.getD [[]]).headD []
          let scores := if distances = [] then [] else distances.map scoreOfDistance
          Except.ok { query := query_text, results := documents, metadatas := metadatas,
                      scores := scores, ids := ids, total_docs := Option.some count,
                      error := Option.none }

/-- `query_rag` (rag.py lines 10-81): the `except Exception` handler
converts any raised error into the empty-result shape carrying the
stringified exception. -/
def query_rag (vs : VectorStore) (query_text : String) (top_k : Int) : RagResult :=
  match query_rag_attempt vs query_text top_k with
  | Except.ok r => r
  | Except.error e =>
    { query := query_text, results := [], metadatas := [], scores := [], ids := [],
      total_docs := Option.none, error := Option.some e }

/-- One entry of the trace of language-model invocations `smart_query`
performs, in order: intent classification, query rewriting, web-mode
summary synthesis, local-mode answer synthesis. -/
inductive LLMCall where
  | intentCall : LLMCall
  | rewriteCall : LLMCall
  | summaryCall : LLMCall
  | answerCall : LLMCall
deriving DecidableEq

/-- The response dict `smart_query` returns; keys not set by the branch
taken are `Option.none`. -/
structure Response where
  query : String
  mode : String
  answer : String
  articles : Option (List Article)
  rewritten : Option String
  documents : Option (List String)
  metadatas : Option (List Meta)
deriving DecidableEq

/-- The fixed web-mode fallback sentence. -/
def WEB_FALLBACK : String := "No relevant ChildSafe South Africa information found."

/-- The fixed local-mode fallback sentence. -/
def LOCAL_FALLBACK : String := "No relevant information found in ChildSafe reports."

/-- Web-mode grounding safeguard (langchain_rag.py lines 161-177):
answers not mentioning "childsafe" (case-insensitive) are replaced by
the fixed fallback and the articles list is cleared. -/
def webValidate (answer : String) (articles : List Article) : String × List Article :=
  if !(strContains (pyLower answer) "childsafe") then
    (WEB_FALLBACK, [])
  else
    (answer, articles)

/-- Local-mode grounding safeguard (langchain_rag.py lines 225-235):
answers mentioning neither "childsafe" nor "report" (case-insensitive)
are replaced by the fixed fallback; only the answer is touched. -/
def localValidate (answer : String) : String :=
  if !(strContains (pyLower answer) "childsafe") && !(strContains (pyLower answer) "report") then
    LOCAL_FALLBACK
  else
    answer

/-- Article formatting for the web-mode summarizer prompt
(langchain_rag.py lines 143-149). -/
def format_article (r : Article) : String :=
  let title := r.title.getD "Untitled"
  let url := r.link.getD (r.url.getD "")
  let snippet := pyTake (r.snippet.getD (r.content.getD "")) 300
  "- Title: " ++ title ++ "\n  URL: " ++ url ++ "\n  Content: " ++ snippet ++ "..."

/-- `articles_text` assembly (langchain_rag.py line 149). -/
def format_articles (articles : List Article) : String :=
  String.intercalate "\n\n" (articles.map format_article)

/-- Context assembly for the local-mode synthesizer prompt
(langchain_rag.py lines 208-213). -/
def build_context (documents : List String) (metadatas : List Meta) : String :=
  let context_blocks := (documents.zip metadatas).map (fun dm =>
    let source := dm.2.report_year.getD "unknown report"
    let page := dm.2.page.getD "?"
    "[Report: " ++ source ++ ", Page " ++ page ++ "]\n" ++ dm.1)
  String.intercalate "\n\n" context_blocks

/-- Oracles consumed by `smart_query`: the four language-model chains
(each a pure function of the prompt variables), the search
configuration for `search_articles`, and the vector store reached in
the local branch. -/
structure Env where
  intentOut : String → String
  rewriteOut : String → String
  summaryOut : String → String → String
  answerOut : String → String → String
  searchCfg : SearchConfig
  vs : VectorStore

/-- `smart_query` (langchain_rag.py lines 104-245).  Returns the
response dict together with the ordered trace of language-model calls
performed; the local branch's vector-store calls are NOT wrapped in any
try/except in the source, so their failures propagate as
`Except.error`.  The `[0]` extraction of the per-query inner lists is
`headD []`, relying on the store contract of one inner list per input
query. -/
def smart_query (env : Env) (query : String) (top_k : Int) :
    Except String (Response × List LLMCall) :=
  let intent := pyLower (pyStrip (env.intentOut query))
  if intent = "web" then
    let results := search_articles env.searchCfg query 5
    if results.articles = [] then
      Except.ok ({ query := query, mode := "web", answer := WEB_FALLBACK,
                   articles := Option.some [], rewritten := Option.none,
                   documents := Option.none, metadatas := Option.none },
                 [LLMCall.intentCall])
    else
      let articles := results.articles
      let articles_text := format_articles articles
      let answer := env.summaryOut query articles_text
      let v := webValidate answer articles
      Except.ok ({ query := query, mode := "web", answer := v.1,
                   articles := Option.some v.2, rewritten := Option.none,
                   documents := Option.none, metadatas := Option.none },
                 [LLMCall.intentCall, LLMCall.summaryCall])
  else
    let rewritten := env.rewriteOut query
    match env.vs.get_collection with
    | Except.error e => Except.error e
    | Except.ok _ =>
      match env.vs.query rewritten top_k with
      | Except.error e => Except.error e
      | Except.ok results =>
        let documents := (results.documents.getD [[]]).headD []
        let metadatas := (results.metadatas.getD [[]]).headD []
        if documents = [] then
          Except.ok ({ query := query, mode := "local", answer := LOCAL_FALLBACK,
                       articles := Option.none, rewritten := Option.none,
                       documents := Option.none, metadatas := Option.none },
                     [LLMCall.intentCall, LLMCall.rewriteCall])
        else
          let context := build_context documents metadatas
          let answer := env.answerOut query context
          Except.ok ({ query := query, mode := "local", answer := localValidate answer,
                       articles := Option.none, rewritten := Option.some rewritten,
                       documents := Option.some documents,
                       metadatas := Option.some metadatas },
                     [LLMCall.intentCall, LLMCall.rewriteCall, LLMCall.answerCall])

/-! ### Concrete instantiations used to exercise the embedding -/

/-- A web article that mentions the organization. -/
def articleW : Article :=
  { title := Option.some "ChildSafe SA in the news",
    url := Option.some "https://example.org/a",
    link := Option.none, snippet := Option.none,
    content := Option.some "ChildSafe South Africa launched a road safety campaign.",
    displayed_link := Option.none, source := Option.none }

/-- Search config selecting Google without a SerpAPI credential while a
Tavily credential is present. -/
def cfgNoKeys : SearchConfig :=
  { mode := "google", serpapiKey := Option.none, tavilyKey := Option.some "tvly-key",
    tavilySearch := fun _ _ => { results := Option.none },
    serpSearch := fun _ _ => Except.error "network unreachable",
    legacySearch1 := fun _ _ => Except.error "import failed",
    legacySearch2 := fun _ _ => Except.error "import failed" }

/-- Search config with a working Tavily backend returning one relevant
article. -/
def cfgTavily : SearchConfig :=
  { mode := "tavily", serpapiKey := Option.none, tavilyKey := Option.some "tvly-key",
    tavilySearch := fun _ _ => { results := Option.some [articleW] },
    serpSearch := fun _ _ => Except.error "network unreachable",
    legacySearch1 := fun _ _ => Except.error "import failed",
    legacySearch2 := fun _ _ => Except.error "import failed" }

/-- A metadata record as produced by the ingestion path. -/
def metaW : Meta := { report_year := Option.some "2019-2020", page := Option.some "5" }

/-- A well-formed vector-store query payload with one document. -/
def chromaResW : ChromaQueryResult :=
  { documents := Option.some [["Road safety campaign results."]],
    metadatas := Option.some [[metaW]],
    distances := Option.some [[0, 1/2, 2]],
    ids := Option.some [["chunk-0"]] }

/-- A vector-store query payload with zero matches. -/
def chromaResEmpty : ChromaQueryResult :=
  { documents := Option.some [[]], metadatas := Option.some [[]],
    distances := Option.some [[]], ids := Option.some [[]] }

/-- A healthy vector store holding one chunk. -/
def vsW : VectorStore :=
  { get_collection := Except.ok (), count := Except.ok 1,
    query := fun _ _ => Except.ok chromaResW }

/-- A healthy vector store whose queries match nothing. -/
def vsEmptyDocs : VectorStore :=
  { get_collection := Except.ok (), count := Except.ok 1,
    query := fun _ _ => Except.ok chromaResEmpty }

/-- An unreachable vector store: every operation raises. -/
def vsFail : VectorStore :=
  { get_collection := Except.error "connection refused",
    count := Except.error "connection refused",
    query := fun _ _ => Except.error "connection refused" }

/-- A vector store whose query call raises, as ChromaDB does when
`n_results` is not positive. -/
def vsRejectsTopK : VectorStore :=
  { get_collection := Except.ok (), count := Except.ok 1,
    query := fun _ _ => Except.error "Number of requested results 0 cannot be negative or zero" }

/-- Oracles: classifier says web (with noise exercising the strip and
lowercase normalization), no search credentials configured. -/
def envWebNoArticles : Env :=
  { intentOut := fun _ => " WEB ", rewriteOut := fun q => q,
    summaryOut := fun _ _ => "", answerOut := fun _ _ => "",
    searchCfg := cfgNoKeys, vs := vsW }

/-- Oracles: classifier says web, Tavily finds one relevant article and
the summarizer stays on topic. -/
def envWebGrounded : Env :=
  { intentOut := fun _ => "web", rewriteOut := fun q => q,
    summaryOut := fun _ _ => "ChildSafe South Africa runs road safety programs.",
    answerOut := fun _ _ => "", searchCfg := cfgTavily, vs := vsW }

/-- Oracles: classifier says web, Tavily finds one relevant article but
the summarizer drifts off topic. -/
def envWebHallucinated : Env :=
  { intentOut := fun _ => "web", rewriteOut := fun q => q,
    summaryOut := fun _ _ => "The weather in Cape Town is mild.",
    answerOut := fun _ _ => "", searchCfg := cfgTavily, vs := vsW }

/-- Oracles: classifier says local, retrieval matches nothing. -/
def envLocalEmpty : Env :=
  { intentOut := fun _ => "local", rewriteOut := fun q => q,
    summaryOut := fun _ _ => "", answerOut := fun _ _ => "",
    searchCfg := cfgNoKeys, vs := vsEmptyDocs }

/-- Oracles: classifier says local, retrieval finds a document but the
synthesizer mentions neither grounding marker. -/
def envLocalHallucinated : Env :=
  { intentOut := fun _ => "local",
    rewriteOut := fun q => q ++ " ChildSafe annual reports",
    summaryOut := fun _ _ => "",
    answerOut := fun _ _ => "I cannot help with that.",
    searchCfg := cfgNoKeys, vs := vsW }

/-- Oracles: classifier says local, the vector store is unreachable. -/
def envVsDown : Env :=
  { intentOut := fun _ => "local", rewriteOut := fun q => q,
    summaryOut := fun _ _ => "", answerOut := fun _ _ => "",
    searchCfg := cfgNoKeys, vs := vsFail }

/-- The web-mode no-grounding fallback response of `smart_query`. -/
def respWebFallback (q : String) : Response :=
  { query := q, mode := "web", answer := WEB_FALLBACK, articles := Option.some [],
    rewritten := Option.none, documents := Option.none, metadatas := Option.none }

/-- The local-mode no-documents fallback response of `smart_query`
(note: no rewritten, documents or metadatas keys). -/
def respLocalFallback (q : String) : Response :=
  { query := q, mode := "local", answer := LOCAL_FALLBACK, articles := Option.none,
    rewritten := Option.none, documents := Option.none, metadatas := Option.none }

/-! ### Claims -/

/-- C6: when `SEARCH_MODE` selects "google" but no SerpAPI credential is
present (whatever the Tavily credential is, which the statement leaves
unconstrained), `search_articles` returns the fixed
"No search API keys configured..." message with an empty articles list
and never substitutes the other backend. -/
theorem search_articles_no_silent_backend_swap (cfg : SearchConfig) (q : String) (n : Nat)
    (imp : Bool)
    (hmode : cfg.mode = effective_search_mode (Option.some "google") imp)
    (hkey : cfg.serpapiKey = Option.none) :
    search_articles cfg q n =
      { query := q, articles := [],
        answer := "No search API keys configured. Please set SERPAPI_API_KEY or TAVILY_API_KEY." } := by
  have hm : cfg.mode = "google" := by rw [hmode]; cases imp <;> rfl
  simp [search_articles, hm, hkey]

/-- C6 witness: `SEARCH_MODE=google`, only a Tavily key set. -/
theorem search_articles_no_silent_backend_swap_witness :
    search_articles cfgNoKeys "latest news" 5 =
      { query := "latest news", articles := [],
        answer := "No search API keys configured. Please set SERPAPI_API_KEY or TAVILY_API_KEY." } :=
  search_articles_no_silent_backend_swap cfgNoKeys "latest news" 5 true rfl rfl

/-- C7: every similarity score `query_rag` computes from a nonnegative
distance lies in `[0, 1]`; in particular `scoreOfDistance 0 = 1` and
`scoreOfDistance (5/2) = 0`. -/
theorem query_rag_scores_bounded (vs : VectorStore) (q : String) (k : Int)
    (res : ChromaQueryResult)
    (hq : vs.query q k = Except.ok res)
    (hd : ∀ d ∈ (res.distances.getD [[]]).headD [], (0:ℚ) ≤ d) :
    (∀ s ∈ (query_rag vs q k).scores, 0 ≤ s ∧ s ≤ 1) ∧
    scoreOfDistance 0 = 1 ∧ scoreOfDistance (5/2) = 0 := by
  refine ⟨?_, by norm_num [scoreOfDistance], by norm_num [scoreOfDistance, min_def]⟩
  intro s hs
  cases hgc : vs.get_collection with
  | error e => simp [query_rag, query_rag_attempt, hgc] at hs
  | ok u =>
    cases hc : vs.count with
    | error e => simp [query_rag, query_rag_attempt, hgc, hc] at hs
    | ok cnt =>
      by_cases hcnt : cnt = 0
      · simp [query_rag, query_rag_attempt, hgc, hc, hcnt] at hs
      · simp only [query_rag, query_rag_attempt, hgc, hc, hq, if_neg hcnt] at hs
        by_cases hdist : (res.distances.getD [[]]).headD [] = []
        · rw [if_pos hdist] at hs
          simp at hs
        · rw [if_neg hdist] at hs
          obtain ⟨d, hdm, rfl⟩ := List.mem_map.mp hs
          have h0 := hd d hdm
          constructor
          · have h1 := min_le_right d (1:ℚ)
            simp only [scoreOfDistance]
            linarith
          · have h1 : (0:ℚ) ≤ min d 1 := le_min h0 (by norm_num)
            simp only [scoreOfDistance]
            linarith

/-- C7 witness: a store returning distances 0, 1/2 and 2. -/
theorem query_rag_scores_bounded_witness :
    (∀ s ∈ (query_rag vsW "road safety" 5).scores, 0 ≤ s ∧ s ≤ 1) ∧
    scoreOfDistance 0 = 1 ∧ scoreOfDistance (5/2) = 0 :=
  query_rag_scores_bounded vsW "road safety" 5 chromaResW rfl (by
    intro d hdm
    simp [chromaResW] at hdm
    rcases hdm with rfl | rfl | rfl <;> norm_num)

/-- C8: with `top_k ≤ 0`, as long as the store honors the ranked
retrieval contract (at most `top_k` entries per returned list, or a
raised error, which real ChromaDB produces for nonpositive
`n_results`), `query_rag` returns empty results, metadatas, scores and
ids; being a total function of its oracles, it raises nothing. -/
theorem query_rag_nonpositive_topk (vs : VectorStore) (q : String) (k : Int)
    (hk : k ≤ 0)
    (hcontract : ∀ res, vs.query q k = Except.ok res →
      ((res.documents.getD [[]]).headD []).length ≤ k.toNat ∧
      ((res.metadatas.getD [[]]).headD []).length ≤ k.toNat ∧
      ((res.distances.getD [[]]).headD []).length ≤ k.toNat ∧
      ((res.ids.getD [[]]).headD []).length ≤ k.toNat) :
    (query_rag vs q k).results = [] ∧ (query_rag vs q k).metadatas = [] ∧
    (query_rag vs q k).scores = [] ∧ (query_rag vs q k).ids = [] := by
  have hk0 : k.toNat = 0 := Int.toNat_of_nonpos hk
  cases hgc : vs.get_collection with
  | error e => simp [query_rag, query_rag_attempt, hgc]
  | ok u =>
    cases hc : vs.count with
    | error e => simp [query_rag, query_rag_attempt, hgc, hc]
    | ok cnt =>
      by_cases hcnt : cnt = 0
      · simp [query_rag, query_rag_attempt, hgc, hc, hcnt]
      · cases hq : vs.query q k with
        | error e => simp [query_rag, query_rag_attempt, hgc, hc, hcnt, hq]
        | ok res =>
          obtain ⟨h1, h2, h3, h4⟩ := hcontract res hq
          rw [hk0, Nat.le_zero] at h1 h2 h3 h4
          have e1 := List.length_eq_zero.mp h1
          have e2 := List.length_eq_zero.mp h2
          have e3 := List.length_eq_zero.mp h3
          have e4 := List.length_eq_zero.mp h4
          simp only [query_rag, query_rag_attempt, hgc, hc, hq, if_neg hcnt]
          rw [e1, e2, e3, e4]
          simp

/-- C8 witness: `top_k = 0` against a store that raises on nonpositive
result counts, as ChromaDB does. -/
theorem query_rag_nonpositive_topk_witness :
    (query_rag vsRejectsTopK "road safety" 0).results = [] ∧
    (query_rag vsRejectsTopK "road safety" 0).metadatas = [] ∧
    (query_rag vsRejectsTopK "road safety" 0).scores = [] ∧
    (query_rag vsRejectsTopK "road safety" 0).ids = [] :=
  query_rag_nonpositive_topk vsRejectsTopK "road safety" 0 (by decide)
    (fun _ hres => Except.noConfusion hres)

/-- C9: both grounding validators are idempotent on their own fallback
sentences: each fallback already contains the marker "childsafe", so it
passes the check and is returned verbatim, with the accompanying
articles untouched. -/
theorem grounding_validator_idempotent (arts : List Article) :
    webValidate WEB_FALLBACK arts = (WEB_FALLBACK, arts) ∧
    localValidate LOCAL_FALLBACK = LOCAL_FALLBACK :=
  ⟨rfl, rfl⟩

/-- C1: every Response `smart_query` returns is a tagged union over
`mode`: in "web" mode the documents (and metadatas) keys are absent,
and in "local" mode the articles key is absent. -/
theorem smart_query_tagged_union (env : Env) (q : String) (k : Int)
    (r : Response) (t : List LLMCall)
    (h : smart_query env q k = Except.ok (r, t)) :
    (r.mode = "web" → r.documents = Option.none ∧ r.metadatas = Option.none) ∧
    (r.mode = "local" → r.articles = Option.none) := by
  simp only [smart_query] at h
  split at h
  · split at h <;>
      (simp only [Except.ok.injEq, Prod.mk.injEq] at h
       obtain ⟨rfl, rfl⟩ := h
       refine ⟨fun hm => ?_, fun hm => ?_⟩ <;>
         first
           | exact ⟨rfl, rfl⟩
           | rfl
           | simp at hm)
  · split at h
    · exact Except.noConfusion h
    · split at h
      · exact Except.noConfusion h
      · split at h <;>
          (simp only [Except.ok.injEq, Prod.mk.injEq] at h
           obtain ⟨rfl, rfl⟩ := h
           refine ⟨fun hm => ?_, fun hm => ?_⟩ <;>
             first
               | exact ⟨rfl, rfl⟩
               | rfl
               | simp at hm)

/-- C1 witness: a concrete web-mode run carries no documents key. -/
theorem smart_query_tagged_union_witness :
    ((respWebFallback "latest news").mode = "web" →
      (respWebFallback "latest news").documents = Option.none ∧
      (respWebFallback "latest news").metadatas = Option.none) ∧
    ((respWebFallback "latest news").mode = "local" →
      (respWebFallback "latest news").articles = Option.none) :=
  smart_query_tagged_union envWebNoArticles "latest news" 5 (respWebFallback "latest news")
    [LLMCall.intentCall] rfl

/-- C4: `smart_query` takes the web branch (the returned mode is "web")
exactly when the raw classifier output, stripped and lowercased, equals
the literal word "web"; every other label lands in the local branch, so
the mode of any returned Response is "web" or "local". -/
theorem smart_query_web_branch_iff (env : Env) (q : String) (k : Int)
    (r : Response) (t : List LLMCall)
    (h : smart_query env q k = Except.ok (r, t)) :
    (r.mode = "web" ↔ pyLower (pyStrip (env.intentOut q)) = "web") ∧
    (r.mode = "web" ∨ r.mode = "local") := by
  simp only [smart_query] at h
  split at h
  · rename_i hw
    split at h <;>
      (simp only [Except.ok.injEq, Prod.mk.injEq] at h
       obtain ⟨rfl, rfl⟩ := h
       exact ⟨by simp [hw], Or.inl rfl⟩)
  · rename_i hw
    split at h
    · exact Except.noConfusion h
    · split at h
      · exact Except.noConfusion h
      · split at h <;>
          (simp only [Except.ok.injEq, Prod.mk.injEq] at h
           obtain ⟨rfl, rfl⟩ := h
           exact ⟨by simp [hw], Or.inr rfl⟩)

/-- C4 witness: noisy classifier output " WEB " routes to the web
branch. -/
theorem smart_query_web_branch_iff_witness :
    ((respWebFallback "latest news").mode = "web" ↔
      pyLower (pyStrip (envWebNoArticles.intentOut "latest news")) = "web") ∧
    ((respWebFallback "latest news").mode = "web" ∨
      (respWebFallback "latest news").mode = "local") :=
  smart_query_web_branch_iff envWebNoArticles "latest news" 5 (respWebFallback "latest news")
    [LLMCall.intentCall] rfl

/-- C2: a branch that finds zero grounding material short-circuits to
its fixed fallback Response without invoking the synthesizer: the web
branch with no articles answers the web fallback with an empty articles
list and a trace containing only the intent call; the local branch with
zero documents answers the local fallback with no payload keys and a
trace containing only the intent and rewrite calls (no summaryCall or
answerCall in either trace). -/
theorem smart_query_empty_grounding_fallback (env : Env) (q : String) (k : Int) :
    (pyLower (pyStrip (env.intentOut q)) = "web" →
      (search_articles env.searchCfg q 5).articles = [] →
      smart_query env q k = Except.ok (respWebFallback q, [LLMCall.intentCall])) ∧
    (∀ res : ChromaQueryResult, pyLower (pyStrip (env.intentOut q)) ≠ "web" →
      env.vs.get_collection = Except.ok () →
      env.vs.query (env.rewriteOut q) k = Except.ok res →
      (res.documents.getD [[]]).headD [] = [] →
      smart_query env q k =
        Except.ok (respLocalFallback q, [LLMCall.intentCall, LLMCall.rewriteCall])) := by
  constructor
  · intro hw ha
    simp only [smart_query, if_pos hw, ha, if_pos rfl]
    rfl
  · intro res hw hgc hq hdocs
    simp only [smart_query, if_neg hw, hgc, hq, if_pos hdocs]
    rfl

/-- C2 witness: a web run with no usable articles and a local run with
zero retrieved documents. -/
theorem smart_query_empty_grounding_fallback_witness :
    smart_query envWebNoArticles "latest news" 5 =
      Except.ok (respWebFallback "latest news", [LLMCall.intentCall]) ∧
    smart_query envLocalEmpty "household budgets" 5 =
      Except.ok (respLocalFallback "household budgets",
        [LLMCall.intentCall, LLMCall.rewriteCall]) :=
  ⟨(smart_query_empty_grounding_fallback envWebNoArticles "latest news" 5).1 rfl rfl,
   (smart_query_empty_grounding_fallback envLocalEmpty "household budgets" 5).2 chromaResEmpty
     (by decide) rfl rfl rfl⟩

/-- C5: in web mode with a non-empty filtered article list, if the
synthesized answer lacks "childsafe" as a case-insensitive substring
the validator substitutes the fixed web fallback and clears the
articles; otherwise the answer and the filtered articles are returned
unchanged. -/
theorem smart_query_web_grounding_guard (env : Env) (q : String) (k : Int)
    (arts : List Article) (a : String)
    (hw : pyLower (pyStrip (env.intentOut q)) = "web")
    (harts : (search_articles env.searchCfg q 5).articles = arts)
    (hne : arts ≠ [])
    (ha : a = env.summaryOut q (format_articles arts)) :
    (strContains (pyLower a) "childsafe" = false →
      smart_query env q k =
        Except.ok (respWebFallback q, [LLMCall.intentCall, LLMCall.summaryCall])) ∧
    (strContains (pyLower a) "childsafe" = true →
      smart_query env q k = Except.ok
        ({ query := q, mode := "web", answer := a, articles := Option.some arts,
           rewritten := Option.none, documents := Option.none, metadatas := Option.none },
         [LLMCall.intentCall, LLMCall.summaryCall])) := by
  subst ha
  constructor <;> intro hcs <;>
    · simp only [smart_query, if_pos hw, harts, if_neg hne, webValidate, hcs]
      simp [respWebFallback]

/-- C5 witness: an off-topic summary is discarded with the articles
cleared; an on-topic summary passes through with the articles kept. -/
theorem smart_query_web_grounding_guard_witness :
    smart_query envWebHallucinated "latest news" 5 =
      Except.ok (respWebFallback "latest news", [LLMCall.intentCall, LLMCall.summaryCall]) ∧
    smart_query envWebGrounded "latest news" 5 =
      Except.ok
        ({ query := "latest news", mode := "web",
           answer := "ChildSafe South Africa runs road safety programs.",
           articles := Option.some [articleW], rewritten := Option.none,
           documents := Option.none, metadatas := Option.none },
         [LLMCall.intentCall, LLMCall.summaryCall]) :=
  ⟨(smart_query_web_grounding_guard envWebHallucinated "latest news" 5 [articleW] _
      rfl rfl (by decide) rfl).1 (by decide),
   (smart_query_web_grounding_guard envWebGrounded "latest news" 5 [articleW] _
      rfl rfl (by decide) rfl).2 (by decide)⟩

/-- C10: in local mode, when the validator substitutes the fallback
(the synthesized answer contains neither "childsafe" nor "report"
case-insensitively), only the answer field is replaced: query, mode,
rewritten query, documents and metadatas are returned unchanged, so the
fallback can be accompanied by a non-empty documents list. -/
theorem smart_query_local_guard_frame (env : Env) (q : String) (k : Int)
    (res : ChromaQueryResult) (ds : List String) (ms : List Meta) (a : String)
    (hw : pyLower (pyStrip (env.intentOut q)) ≠ "web")
    (hgc : env.vs.get_collection = Except.ok ())
    (hq : env.vs.query (env.rewriteOut q) k = Except.ok res)
    (hds : (res.documents.getD [[]]).headD [] = ds)
    (hms : (res.metadatas.getD [[]]).headD [] = ms)
    (hne : ds ≠ [])
    (ha : a = env.answerOut q (build_context ds ms))
    (hc1 : strContains (pyLower a) "childsafe" = false)
    (hc2 : strContains (pyLower a) "report" = false) :
    smart_query env q k = Except.ok
      ({ query := q, mode := "local", answer := LOCAL_FALLBACK,
         articles := Option.none, rewritten := Option.some (env.rewriteOut q),
         documents := Option.some ds, metadatas := Option.some ms },
       [LLMCall.intentCall, LLMCall.rewriteCall, LLMCall.answerCall]) := by
  subst ha
  simp only [smart_query, if_neg hw, hgc, hq, hds, hms, if_neg hne, localValidate, hc1, hc2]
  simp

/-- C10 witness: one retrieved document, an answer missing both
grounding markers; everything but the answer survives, with a
non-empty documents list next to the fallback answer. -/
theorem smart_query_local_guard_frame_witness :
    smart_query envLocalHallucinated "who is childsafe" 5 =
      Except.ok
        ({ query := "who is childsafe", mode := "local", answer := LOCAL_FALLBACK,
           articles := Option.none,
           rewritten := Option.some "who is childsafe ChildSafe annual reports",
           documents := Option.some ["Road safety campaign results."],
           metadatas := Option.some [metaW] },
         [LLMCall.intentCall, LLMCall.rewriteCall, LLMCall.answerCall]) :=
  smart_query_local_guard_frame envLocalHallucinated "who is childsafe" 5 chromaResW
    ["Road safety campaign results."] [metaW] _ (by decide) rfl rfl rfl rfl (by decide) rfl
    (by decide) (by decide)

/-- C3, counterexample to the claim as stated: `smart_query`'s local
path wraps its vector-store calls in no try/except
(langchain_rag.py lines 191-195), so a connection failure propagates to
the caller instead of being converted into a fallback Response — here a
concrete run returns the raised error itself. -/
theorem smart_query_propagates_vs_error_counterexample :
    smart_query envVsDown "who is childsafe" 5 = Except.error "connection refused" := rfl

/-- C3 as amended: every vector-store failure inside `query_rag` is
caught and converted into the empty-result shape carrying the error
string, while `smart_query`'s local path propagates a vector-store
failure unchanged to its caller. -/
theorem provider_error_converted_and_propagated :
    (∀ (vs : VectorStore) (q : String) (k : Int) (e : String),
      query_rag_attempt vs q k = Except.error e →
      query_rag vs q k =
        { query := q, results := [], metadatas := [], scores := [], ids := [],
          total_docs := Option.none, error := Option.some e }) ∧
    (∀ (env : Env) (q : String) (k : Int) (e : String),
      pyLower (pyStrip (env.intentOut q)) ≠ "web" →
      env.vs.get_collection = Except.error e →
      smart_query env q k = Except.error e) := by
  constructor
  · intro vs q k e hfail
    simp [query_rag, hfail]
  · intro env q k e hw hgc
    simp [smart_query, if_neg hw, hgc]

/-- C3 witness: an unreachable store is degraded by `query_rag` and
propagated by `smart_query`. -/
theorem provider_error_converted_and_propagated_witness :
    query_rag vsFail "who is childsafe" 5 =
      { query := "who is childsafe", results := [], metadatas := [], scores := [], ids := [],
        total_docs := Option.none, error := Option.some "connection refused" } ∧
    smart_query envVsDown "annual report" 5 = Except.error "connection refused" :=
  ⟨provider_error_converted_and_propagated.1 vsFail "who is childsafe" 5 "connection refused" rfl,
   provider_error_converted_and_propagated.2 envVsDown "annual report" 5 "connection refused"
     (by decide) rfl⟩

end ChildSafe
